import Mathlib

/-
Verification of the flamegraph orchestration library (src/src/lib.rs):
platform-specific sampling command construction, exit-status
classification, signal-handler scoping, and pipeline sequencing.
-/

namespace Flamegraph

/-- Signal number of the interrupt signal (signal_hook::SIGINT). -/
def SIGINT : Int := 2

/-- Signal number of the terminate signal (signal_hook::SIGTERM). -/
def SIGTERM : Int := 15

/-- Shallow model of std::process::ExitStatus on unix: whether the status
reports success, and the signal the process was terminated by, if any
(ExitStatusExt::signal). -/
structure ExitStatus where
  success : Bool
  signal : Option Int
  deriving DecidableEq

/-- Embedding of terminated_by_error (src/src/lib.rs, unix version):
status.signal().map_or(true, |code| code != SIGINT && code != SIGTERM)
&& !status.success(). -/
def terminated_by_error (status : ExitStatus) : Bool :=
  (match status.signal with
   | none => true
   | some code => code != SIGINT && code != SIGTERM)
  && !status.success

/-- The three termination outcomes of the ExitClassifier component. -/
inductive ExitOutcome where
  | Success
  | UserInterrupted
  | Failed
  deriving DecidableEq

/-- Modelled from the spec: ExitClassifier.classify of section 4.3, which is
not a separate function in src (the source only has the boolean
terminated_by_error): success reports Success regardless of signal info;
otherwise termination by the interrupt or terminate signal is
UserInterrupted; any other non-success status is Failed. -/
def classify (status : ExitStatus) : ExitOutcome :=
  if status.success then ExitOutcome.Success
  else
    match status.signal with
    | some code =>
        if code = SIGINT ∨ code = SIGTERM then ExitOutcome.UserInterrupted
        else ExitOutcome.Failed
    | none => ExitOutcome.Failed

/-- Shallow model of std::process::Command: the program to run and its
ordered argument list. -/
structure Cmd where
  program : String
  args : List String
  deriving DecidableEq

/-- Helper for splitWhitespace: walk the characters, collecting the current
word in acc (reversed). -/
def splitWhitespaceAux : List Char → List Char → List String
  | [], acc => if acc.isEmpty then [] else [String.mk acc.reverse]
  | c :: rest, acc =>
    if c.isWhitespace then
      (if acc.isEmpty then [] else [String.mk acc.reverse])
        ++ splitWhitespaceAux rest []
    else splitWhitespaceAux rest (c :: acc)

/-- Rust str::split_whitespace: split on whitespace, discarding empty
pieces. -/
def splitWhitespace (s : String) : List String :=
  splitWhitespaceAux s.toList []

namespace perf_arch

def SPAWN_ERROR : String := "could not spawn perf"

def WAIT_ERROR : String := "unable to wait for perf child command to exit"

def OUTPUT_ERROR : String := "unable to call perf script"

/-- Embedding of the linux arch::initial_command: Command::new("perf"),
then each piece of "record -F 99 --call-graph dwarf -g" split on
whitespace as an argument, then each whitespace-separated piece of the
workload string as an argument. -/
def initial_command (workload : String) : Cmd :=
  { program := "perf"
    args := splitWhitespace "record -F 99 --call-graph dwarf -g"
            ++ splitWhitespace workload }

end perf_arch

/-- Contents of the file cargo-flamegraph.stacks in the current directory:
some bytes when the file exists, none when it does not. This is the only
file the dtrace backend touches. -/
structure FS where
  stacksFile : Option (List Nat)
  deriving DecidableEq

namespace dtrace_arch

def SPAWN_ERROR : String := "could not spawn dtrace"

def WAIT_ERROR : String := "unable to wait for dtrace child command to exit"

def OUTPUT_ERROR : String := "failed to open dtrace output file cargo-flamegraph.stacks"

/-- The dtrace probe script literal from arch::initial_command. -/
def dtrace_script : String :=
  "profile-997 /pid == $target/ \x7b \x40[ustack(100)] = count(); \x7d"

/-- Embedding of the non-linux arch::initial_command:
Command::new("dtrace") with arguments -xmangled, -x ustackframes=100,
-n <script>, -o cargo-flamegraph.stacks, -c <workload>, in that order;
the workload string is passed whole as the single argument after -c. -/
def initial_command (workload : String) : Cmd :=
  { program := "dtrace"
    args := ["-xmangled", "-x", "ustackframes=100",
             "-n", dtrace_script,
             "-o", "cargo-flamegraph.stacks",
             "-c", workload] }

/-- Embedding of the non-linux arch::output: open cargo-flamegraph.stacks
(failure when the file is missing, modelled as none), read it fully,
remove the file, and return the bytes together with the file system left
behind. -/
def output (fs : FS) : Option (List Nat × FS) :=
  match fs.stacksFile with
  | none => none
  | some buf => some (buf, { stacksFile := none })

end dtrace_arch

/-- Embedding of the linux arch::output: run the command perf script
(runCmd models Command::output, none when the call fails), return its
captured stdout; the file system is untouched. -/
def perf_arch_output (runCmd : Cmd → Option (List Nat)) (fs : FS) :
    Option (List Nat × FS) :=
  (runCmd { program := "perf", args := ["script"] }).map fun out => (out, fs)

/-- Modelled from the spec: the inferno dtrace collapse Options (external
collaborator, not in src); the spec says the demangling flag is true for
the dtrace backend and default otherwise, so the default is false. -/
structure DtraceCollapseOptions where
  demangle : Bool := false
  deriving DecidableEq

/-- Modelled from the spec: the inferno perf collapse Options (external
collaborator, not in src); the linux backend configures nothing, so the
model carries no fields and the default is the unique value. -/
structure PerfCollapseOptions where
  deriving DecidableEq

/-- Embedding of the non-linux collapse_options: demangle set to true, the
remaining fields from Default::default(). -/
def collapse_options_dtrace : DtraceCollapseOptions :=
  { demangle := true }

/-- Embedding of the linux collapse_options: CollapseOptions::default(). -/
def collapse_options_linux : PerfCollapseOptions := {}

/-- Observable events of one run of
generate_flamegraph_by_running_command, in program order.  A fatal event
is a panic through expect: the process dies there and the trace ends. -/
inductive Event where
  | register
  | fatal (msg : String)
  | spawn (cmd : Cmd)
  | wait (status : ExitStatus)
  | unregister
  | eprintln (msg : String)
  | processExit (code : Nat)
  | archOutput
  | collapse
  | printlnWriting (path : String)
  | createFile (path : String)
  | render
  deriving DecidableEq

/-- Outcomes of the external calls a run makes, fixed up front so that the
run itself is a pure function: whether signal_hook::register succeeds,
whether Command::spawn succeeds, what Child::wait returns (none when the
wait itself fails), and whether arch::output, the collapser, File::create
and flamegraph::from_reader succeed. -/
structure RunEnv where
  registerOk : Bool
  spawnOk : Bool
  waitResult : Option ExitStatus
  outputOk : Bool
  collapseOk : Bool
  createOk : Bool
  renderOk : Bool
  deriving DecidableEq

/-- The compile-time arch module: its error strings and its
initial_command constructor. -/
structure Backend where
  SPAWN_ERROR : String
  WAIT_ERROR : String
  OUTPUT_ERROR : String
  initial_command : String → Cmd

/-- The linux arch module as a Backend. -/
def perfBackend : Backend :=
  { SPAWN_ERROR := perf_arch.SPAWN_ERROR
    WAIT_ERROR := perf_arch.WAIT_ERROR
    OUTPUT_ERROR := perf_arch.OUTPUT_ERROR
    initial_command := perf_arch.initial_command }

/-- The non-linux arch module as a Backend. -/
def dtraceBackend : Backend :=
  { SPAWN_ERROR := dtrace_arch.SPAWN_ERROR
    WAIT_ERROR := dtrace_arch.WAIT_ERROR
    OUTPUT_ERROR := dtrace_arch.OUTPUT_ERROR
    initial_command := dtrace_arch.initial_command }

/-- Embedding of generate_flamegraph_by_running_command as the trace of
events it produces, following the source line by line: register the
SIGINT handler (expect on failure), build the arch command, spawn
(expect), wait (expect), unregister, then either print a diagnostic and
exit 1 when terminated_by_error holds, or fetch arch::output, collapse,
announce, create the flamegraph file and render, each expect-guarded. -/
def generate_flamegraph_by_running_command
    (b : Backend) (env : RunEnv)
    (workload flamegraph_filename : String) : List Event :=
  if !env.registerOk then
    [Event.fatal "cannot register signal handler"]
  else
    Event.register ::
    (if !env.spawnOk then
      [Event.fatal b.SPAWN_ERROR]
    else
      Event.spawn (b.initial_command workload) ::
      (match env.waitResult with
       | none => [Event.fatal b.WAIT_ERROR]
       | some exit_status =>
         Event.wait exit_status ::
         Event.unregister ::
         (if terminated_by_error exit_status then
           [Event.eprintln "failed to sample program", Event.processExit 1]
         else
           Event.archOutput ::
           (if !env.outputOk then
             [Event.fatal b.OUTPUT_ERROR]
           else
             Event.collapse ::
             (if !env.collapseOk then
               [Event.fatal "unable to collapse generated profile data"]
             else
               Event.printlnWriting flamegraph_filename ::
               (if !env.createOk then
                 [Event.fatal "unable to create flamegraph.svg output file"]
               else
                 Event.createFile flamegraph_filename ::
                 Event.render ::
                 (if !env.renderOk then
                   [Event.fatal
                     "unable to generate a flamegraph from the collapsed stack data"]
                 else
                   [])))))))

/-- Does an event spawn a child process? -/
def isSpawn : Event → Bool
  | Event.spawn _ => true
  | _ => false

/-- Does an event wait on the child? -/
def isWait : Event → Bool
  | Event.wait _ => true
  | _ => false

/-- Is an event the arch::output call? -/
def isOutput : Event → Bool
  | Event.archOutput => true
  | _ => false

/-- Is an event the unregistration of the SIGINT handler? -/
def isUnregister : Event → Bool
  | Event.unregister => true
  | _ => false

/-- Is an event a process exit through std::process::exit? -/
def isProcessExit : Event → Bool
  | Event.processExit _ => true
  | _ => false

/-- Is an event a panic through expect? -/
def isFatal : Event → Bool
  | Event.fatal _ => true
  | _ => false

/-- Is an event the creation of the flamegraph artifact file? -/
def isCreateFile : Event → Bool
  | Event.createFile _ => true
  | _ => false

/-- How many events of a trace satisfy p. -/
def countEv (p : Event → Bool) (tr : List Event) : Nat :=
  (tr.filter p).length

/-- C3: for every exit status that reports success, classification yields
Success (terminated_by_error returns false), regardless of what the
signal field of the status contains. -/
theorem C3_success_always_success (status : ExitStatus)
    (hs : status.success = true) :
    terminated_by_error status = false ∧
    classify status = ExitOutcome.Success := by
  constructor
  · simp [terminated_by_error, hs]
  · simp [classify, hs]

/-- Witness for C3 at a non-success-irrelevant concrete input: a success
status that even carries a signal code. -/
theorem C3_success_always_success_witness :
    terminated_by_error { success := true, signal := some 9 } = false ∧
    classify { success := true, signal := some 9 } = ExitOutcome.Success :=
  C3_success_always_success { success := true, signal := some 9 } rfl

/-- C4: for every non-success exit status whose signal information is
absent or a signal other than interrupt or terminate, classification
yields Failed (terminated_by_error returns true); an absent signal code
defaults to not benign. -/
theorem C4_other_nonsuccess_failed (status : ExitStatus)
    (hs : status.success = false)
    (hsig : status.signal = none ∨
      ∃ c, status.signal = some c ∧ c ≠ SIGINT ∧ c ≠ SIGTERM) :
    terminated_by_error status = true ∧
    classify status = ExitOutcome.Failed := by
  rcases hsig with h | ⟨c, hc, h1, h2⟩
  · constructor
    · simp [terminated_by_error, hs, h]
    · simp [classify, hs, h]
  · constructor
    · simp [terminated_by_error, hs, hc, h1, h2]
    · simp [classify, hs, hc, h1, h2]

/-- Witness for C4: a plain non-zero exit with no signal information is
classified Failed. -/
theorem C4_other_nonsuccess_failed_witness :
    terminated_by_error { success := false, signal := none } = true ∧
    classify { success := false, signal := none } = ExitOutcome.Failed :=
  C4_other_nonsuccess_failed { success := false, signal := none } rfl
    (Or.inl rfl)

/-- C7: the dtrace arch::output reads the whole contents of
cargo-flamegraph.stacks and deletes the file before returning the bytes,
so a second call on the resulting file system fails: the backing file no
longer exists. -/
theorem C7_destructive_read (buf : List Nat) :
    dtrace_arch.output { stacksFile := some buf } =
      some (buf, { stacksFile := none }) ∧
    dtrace_arch.output { stacksFile := none } = none :=
  ⟨rfl, rfl⟩

/-- C8: the linux sampling command is exactly perf record -F 99
--call-graph dwarf -g followed by the workload tokens in order, and
output retrieval runs perf script, returning its captured stdout with
the file system untouched. -/
theorem C8_perf_command_and_output (w : String)
    (runCmd : Cmd → Option (List Nat)) (fs : FS) (out : List Nat)
    (h : runCmd { program := "perf", args := ["script"] } = some out) :
    perf_arch.initial_command w =
      { program := "perf"
        args := ["record", "-F", "99", "--call-graph", "dwarf", "-g"]
                ++ splitWhitespace w } ∧
    perf_arch_output runCmd fs = some (out, fs) := by
  constructor
  · have hfix : splitWhitespace "record -F 99 --call-graph dwarf -g" =
        ["record", "-F", "99", "--call-graph", "dwarf", "-g"] := by decide
    simp [perf_arch.initial_command, hfix]
  · simp [perf_arch_output, h]

/-- Witness for C8 at the workload sleep 5 and a run function that
captures [7] as stdout of any command. -/
theorem C8_perf_command_and_output_witness :
    perf_arch.initial_command "sleep 5" =
      { program := "perf"
        args := ["record", "-F", "99", "--call-graph", "dwarf", "-g",
                 "sleep", "5"] } ∧
    perf_arch_output (fun _ => some [7]) { stacksFile := none } =
      some ([7], { stacksFile := none }) :=
  C8_perf_command_and_output "sleep 5" (fun _ => some [7])
    { stacksFile := none } [7] rfl

/-- C9: the non-linux sampling command is exactly dtrace -xmangled -x
ustackframes=100 -n <probe script> -o cargo-flamegraph.stacks -c
<workload>, and the dtrace collapse stage enables demangling while the
linux one uses the default options. -/
theorem C9_dtrace_command_and_collapse (w : String) :
    dtrace_arch.initial_command w =
      { program := "dtrace"
        args := ["-xmangled", "-x", "ustackframes=100",
                 "-n",
                 "profile-997 /pid == $target/ \x7b \x40[ustack(100)] = count(); \x7d",
                 "-o", "cargo-flamegraph.stacks",
                 "-c", w] } ∧
    collapse_options_dtrace.demangle = true ∧
    collapse_options_linux = {} :=
  ⟨rfl, rfl, rfl⟩

/-- C10: the linux backend splits the workload string on whitespace into
separate arguments, so an argument with an embedded space cannot be
passed intact, while the non-linux backend passes the whole workload
string unsplit as the single argument after -c. -/
theorem C10_workload_tokenization (w : String) :
    (perf_arch.initial_command w).args =
      ["record", "-F", "99", "--call-graph", "dwarf", "-g"]
        ++ splitWhitespace w ∧
    (dtrace_arch.initial_command w).args =
      ["-xmangled", "-x", "ustackframes=100",
       "-n", dtrace_arch.dtrace_script,
       "-o", "cargo-flamegraph.stacks",
       "-c", w] ∧
    splitWhitespace "a b" = ["a", "b"] ∧
    "a b" ∉ (perf_arch.initial_command "a b").args ∧
    (dtrace_arch.initial_command "a b").args.getLast? = some "a b" := by
  refine ⟨?_, rfl, by decide, by decide, by decide⟩
  have hfix : splitWhitespace "record -F 99 --call-graph dwarf -g" =
      ["record", "-F", "99", "--call-graph", "dwarf", "-g"] := by decide
  simp [perf_arch.initial_command, hfix]

/-- Helper: a non-success status terminated by SIGINT or SIGTERM is not
classified as an error by terminated_by_error. -/
theorem terminated_by_error_benign (status : ExitStatus)
    (hsig : status.signal = some SIGINT ∨ status.signal = some SIGTERM) :
    terminated_by_error status = false := by
  rcases hsig with h | h <;> simp [terminated_by_error, h, SIGINT, SIGTERM]

/-- C1: a non-success status terminated by the interrupt or terminate
signal classifies as UserInterrupted (terminated_by_error false), and
the run does not abort: it retrieves the output, collapses it and
renders the artifact, with no process exit and no panic. -/
theorem C1_interrupt_pipeline_proceeds (b : Backend) (env : RunEnv)
    (status : ExitStatus) (w p : String)
    (hs : status.success = false)
    (hsig : status.signal = some SIGINT ∨ status.signal = some SIGTERM)
    (hr : env.registerOk = true) (hsp : env.spawnOk = true)
    (hw : env.waitResult = some status)
    (ho : env.outputOk = true) (hc : env.collapseOk = true)
    (hcr : env.createOk = true) (hre : env.renderOk = true) :
    terminated_by_error status = false ∧
    classify status = ExitOutcome.UserInterrupted ∧
    Event.archOutput ∈ generate_flamegraph_by_running_command b env w p ∧
    Event.collapse ∈ generate_flamegraph_by_running_command b env w p ∧
    Event.render ∈ generate_flamegraph_by_running_command b env w p ∧
    countEv isProcessExit (generate_flamegraph_by_running_command b env w p) = 0 ∧
    countEv isFatal (generate_flamegraph_by_running_command b env w p) = 0 := by
  have htbe : terminated_by_error status = false :=
    terminated_by_error_benign status hsig
  have hcl : classify status = ExitOutcome.UserInterrupted := by
    rcases hsig with h | h <;> simp [classify, hs, h, SIGINT, SIGTERM]
  have htr : generate_flamegraph_by_running_command b env w p =
      [Event.register, Event.spawn (b.initial_command w), Event.wait status,
       Event.unregister, Event.archOutput, Event.collapse,
       Event.printlnWriting p, Event.createFile p, Event.render] := by
    simp [generate_flamegraph_by_running_command, hr, hsp, hw, htbe, ho, hc,
      hcr, hre]
  refine ⟨htbe, hcl, ?_, ?_, ?_, ?_, ?_⟩ <;>
    simp [htr, countEv, isProcessExit, isFatal]

/-- Witness for C1: the perf backend with a SIGINT-terminated non-success
status and all pipeline calls succeeding. -/
theorem C1_interrupt_pipeline_proceeds_witness :
    terminated_by_error { success := false, signal := some 2 } = false ∧
    classify { success := false, signal := some 2 } =
      ExitOutcome.UserInterrupted ∧
    Event.archOutput ∈ generate_flamegraph_by_running_command perfBackend
      { registerOk := true, spawnOk := true,
        waitResult := some { success := false, signal := some 2 },
        outputOk := true, collapseOk := true, createOk := true,
        renderOk := true } "sleep 5" "flamegraph.svg" ∧
    Event.collapse ∈ generate_flamegraph_by_running_command perfBackend
      { registerOk := true, spawnOk := true,
        waitResult := some { success := false, signal := some 2 },
        outputOk := true, collapseOk := true, createOk := true,
        renderOk := true } "sleep 5" "flamegraph.svg" ∧
    Event.render ∈ generate_flamegraph_by_running_command perfBackend
      { registerOk := true, spawnOk := true,
        waitResult := some { success := false, signal := some 2 },
        outputOk := true, collapseOk := true, createOk := true,
        renderOk := true } "sleep 5" "flamegraph.svg" ∧
    countEv isProcessExit (generate_flamegraph_by_running_command perfBackend
      { registerOk := true, spawnOk := true,
        waitResult := some { success := false, signal := some 2 },
        outputOk := true, collapseOk := true, createOk := true,
        renderOk := true } "sleep 5" "flamegraph.svg") = 0 ∧
    countEv isFatal (generate_flamegraph_by_running_command perfBackend
      { registerOk := true, spawnOk := true,
        waitResult := some { success := false, signal := some 2 },
        outputOk := true, collapseOk := true, createOk := true,
        renderOk := true } "sleep 5" "flamegraph.svg") = 0 :=
  C1_interrupt_pipeline_proceeds perfBackend
    { registerOk := true, spawnOk := true,
      waitResult := some { success := false, signal := some 2 },
      outputOk := true, collapseOk := true, createOk := true,
      renderOk := true }
    { success := false, signal := some 2 } "sleep 5" "flamegraph.svg"
    rfl (Or.inl rfl) rfl rfl rfl rfl rfl rfl rfl

/-- C2: when the exit status classifies as an error
(terminated_by_error true), the run prints the diagnostic to stderr and
exits the whole process with code 1; no output retrieval happens and the
artifact file is never created. -/
theorem C2_failed_aborts_without_artifact (b : Backend) (env : RunEnv)
    (status : ExitStatus) (w p : String)
    (hterr : terminated_by_error status = true)
    (hr : env.registerOk = true) (hsp : env.spawnOk = true)
    (hw : env.waitResult = some status) :
    generate_flamegraph_by_running_command b env w p =
      [Event.register, Event.spawn (b.initial_command w), Event.wait status,
       Event.unregister, Event.eprintln "failed to sample program",
       Event.processExit 1] ∧
    countEv isOutput (generate_flamegraph_by_running_command b env w p) = 0 ∧
    countEv isCreateFile
      (generate_flamegraph_by_running_command b env w p) = 0 := by
  have htr : generate_flamegraph_by_running_command b env w p =
      [Event.register, Event.spawn (b.initial_command w), Event.wait status,
       Event.unregister, Event.eprintln "failed to sample program",
       Event.processExit 1] := by
    simp [generate_flamegraph_by_running_command, hr, hsp, hw, hterr]
  refine ⟨htr, ?_, ?_⟩ <;> simp [htr, countEv, isOutput, isCreateFile]

/-- Witness for C2: the dtrace backend with a plain non-zero exit status
(no signal). -/
theorem C2_failed_aborts_without_artifact_witness :
    generate_flamegraph_by_running_command dtraceBackend
      { registerOk := true, spawnOk := true,
        waitResult := some { success := false, signal := none },
        outputOk := true, collapseOk := true, createOk := true,
        renderOk := true } "sleep 5" "flamegraph.svg" =
      [Event.register,
       Event.spawn (dtraceBackend.initial_command "sleep 5"),
       Event.wait { success := false, signal := none },
       Event.unregister, Event.eprintln "failed to sample program",
       Event.processExit 1] ∧
    countEv isOutput (generate_flamegraph_by_running_command dtraceBackend
      { registerOk := true, spawnOk := true,
        waitResult := some { success := false, signal := none },
        outputOk := true, collapseOk := true, createOk := true,
        renderOk := true } "sleep 5" "flamegraph.svg") = 0 ∧
    countEv isCreateFile (generate_flamegraph_by_running_command dtraceBackend
      { registerOk := true, spawnOk := true,
        waitResult := some { success := false, signal := none },
        outputOk := true, collapseOk := true, createOk := true,
        renderOk := true } "sleep 5" "flamegraph.svg") = 0 :=
  C2_failed_aborts_without_artifact dtraceBackend
    { registerOk := true, spawnOk := true,
      waitResult := some { success := false, signal := none },
      outputOk := true, collapseOk := true, createOk := true,
      renderOk := true }
    { success := false, signal := none } "sleep 5" "flamegraph.svg"
    rfl rfl rfl rfl

/-- C5 counterexample: when spawning the sampler fails, the run dies in
the expect panic with the SIGINT handler still registered, so the
handler is not unregistered on every exit path. -/
theorem C5_counterexample_spawn_failure_keeps_handler :
    Event.register ∈ generate_flamegraph_by_running_command perfBackend
      { registerOk := true, spawnOk := false, waitResult := none,
        outputOk := true, collapseOk := true, createOk := true,
        renderOk := true } "sleep 5" "flamegraph.svg" ∧
    Event.unregister ∉ generate_flamegraph_by_running_command perfBackend
      { registerOk := true, spawnOk := false, waitResult := none,
        outputOk := true, collapseOk := true, createOk := true,
        renderOk := true } "sleep 5" "flamegraph.svg" := by
  decide

/-- C5 amended: on every exit path on which the wait on the child returns
an exit status, the handler is unregistered exactly once, immediately
after the wait and before the status is classified and acted upon (the
trace starts register, spawn, wait, unregister); when spawn or wait
itself panics the handler stays registered. -/
theorem C5_amended_unregister_before_classification (b : Backend)
    (env : RunEnv) (status : ExitStatus) (w p : String)
    (hr : env.registerOk = true) (hsp : env.spawnOk = true)
    (hw : env.waitResult = some status) :
    (generate_flamegraph_by_running_command b env w p).take 4 =
      [Event.register, Event.spawn (b.initial_command w), Event.wait status,
       Event.unregister] ∧
    countEv isUnregister
      (generate_flamegraph_by_running_command b env w p) = 1 := by
  constructor <;>
  · cases h : terminated_by_error status <;>
    cases ho : env.outputOk <;> cases hc : env.collapseOk <;>
    cases hcr : env.createOk <;> cases hre : env.renderOk <;>
      simp [generate_flamegraph_by_running_command, hr, hsp, hw, h, ho, hc,
        hcr, hre, countEv, isUnregister]

/-- Witness for the amended C5: the dtrace backend, a Failed status, and a
collapser that would fail; the handler is still released once, before
the abort. -/
theorem C5_amended_unregister_before_classification_witness :
    (generate_flamegraph_by_running_command dtraceBackend
      { registerOk := true, spawnOk := true,
        waitResult := some { success := false, signal := none },
        outputOk := true, collapseOk := false, createOk := true,
        renderOk := true } "sleep 5" "flamegraph.svg").take 4 =
      [Event.register,
       Event.spawn (dtraceBackend.initial_command "sleep 5"),
       Event.wait { success := false, signal := none },
       Event.unregister] ∧
    countEv isUnregister (generate_flamegraph_by_running_command dtraceBackend
      { registerOk := true, spawnOk := true,
        waitResult := some { success := false, signal := none },
        outputOk := true, collapseOk := false, createOk := true,
        renderOk := true } "sleep 5" "flamegraph.svg") = 1 :=
  C5_amended_unregister_before_classification dtraceBackend
    { registerOk := true, spawnOk := true,
      waitResult := some { success := false, signal := none },
      outputOk := true, collapseOk := false, createOk := true,
      renderOk := true }
    { success := false, signal := none } "sleep 5" "flamegraph.svg"
    rfl rfl rfl

/-- Helper: a status not flagged by terminated_by_error classifies as
Success or UserInterrupted, never Failed. -/
theorem classify_not_failed_of_not_error (status : ExitStatus)
    (h : terminated_by_error status = false) :
    classify status = ExitOutcome.Success ∨
    classify status = ExitOutcome.UserInterrupted := by
  cases hs : status.success
  · cases hsig : status.signal with
    | none => simp [terminated_by_error, hs, hsig] at h
    | some c =>
      right
      simp [terminated_by_error, hs, hsig] at h
      simp [classify, hs, hsig]
      tauto
  · left
    simp [classify, hs]

/-- C6 counterexample: with a non-success SIGINT-terminated status the
outcome is UserInterrupted, not Success, yet the raw sample output is
still retrieved, so retrieval is not restricted to Success outcomes. -/
theorem C6_counterexample_output_after_interrupt :
    classify { success := false, signal := some 2 } ≠ ExitOutcome.Success ∧
    Event.archOutput ∈ generate_flamegraph_by_running_command perfBackend
      { registerOk := true, spawnOk := true,
        waitResult := some { success := false, signal := some 2 },
        outputOk := true, collapseOk := true, createOk := true,
        renderOk := true } "sleep 5" "flamegraph.svg" := by
  decide

/-- C6 amended: in every run in which the sampler is spawned and its exit
status obtained, exactly one child is spawned and waited on exactly
once; the raw sample output is retrieved at most once — exactly once
when terminated_by_error is false and never otherwise — and only after
the wait and the handler release, with the status classifying as Success
or UserInterrupted. -/
theorem C6_amended_single_spawn_wait_output (b : Backend) (env : RunEnv)
    (status : ExitStatus) (w p : String)
    (hr : env.registerOk = true) (hsp : env.spawnOk = true)
    (hw : env.waitResult = some status) :
    countEv isSpawn (generate_flamegraph_by_running_command b env w p) = 1 ∧
    countEv isWait (generate_flamegraph_by_running_command b env w p) = 1 ∧
    countEv isOutput (generate_flamegraph_by_running_command b env w p) =
      (if terminated_by_error status then 0 else 1) ∧
    (terminated_by_error status = false →
      (classify status = ExitOutcome.Success ∨
        classify status = ExitOutcome.UserInterrupted) ∧
      (generate_flamegraph_by_running_command b env w p).take 5 =
        [Event.register, Event.spawn (b.initial_command w),
         Event.wait status, Event.unregister, Event.archOutput]) := by
  refine ⟨?_, ?_, ?_,
    fun hfalse => ⟨classify_not_failed_of_not_error status hfalse, ?_⟩⟩ <;>
  · cases h : terminated_by_error status <;>
    cases ho : env.outputOk <;> cases hc : env.collapseOk <;>
    cases hcr : env.createOk <;> cases hre : env.renderOk <;>
      simp_all [generate_flamegraph_by_running_command, hr, hsp, hw,
        countEv, isSpawn, isWait, isOutput]

/-- Witness for the amended C6: the perf backend with a SIGINT-terminated
non-success status; one spawn, one wait, one retrieval, after the
release and with a UserInterrupted classification. -/
theorem C6_amended_single_spawn_wait_output_witness :
    countEv isSpawn (generate_flamegraph_by_running_command perfBackend
      { registerOk := true, spawnOk := true,
        waitResult := some { success := false, signal := some 2 },
        outputOk := true, collapseOk := true, createOk := true,
        renderOk := true } "sleep 5" "flamegraph.svg") = 1 ∧
    countEv isWait (generate_flamegraph_by_running_command perfBackend
      { registerOk := true, spawnOk := true,
        waitResult := some { success := false, signal := some 2 },
        outputOk := true, collapseOk := true, createOk := true,
        renderOk := true } "sleep 5" "flamegraph.svg") = 1 ∧
    countEv isOutput (generate_flamegraph_by_running_command perfBackend
      { registerOk := true, spawnOk := true,
        waitResult := some { success := false, signal := some 2 },
        outputOk := true, collapseOk := true, createOk := true,
        renderOk := true } "sleep 5" "flamegraph.svg") = 1 ∧
    ((classify { success := false, signal := some 2 } =
        ExitOutcome.Success ∨
      classify { success := false, signal := some 2 } =
        ExitOutcome.UserInterrupted) ∧
     (generate_flamegraph_by_running_command perfBackend
      { registerOk := true, spawnOk := true,
        waitResult := some { success := false, signal := some 2 },
        outputOk := true, collapseOk := true, createOk := true,
        renderOk := true } "sleep 5" "flamegraph.svg").take 5 =
      [Event.register,
       Event.spawn (perfBackend.initial_command "sleep 5"),
       Event.wait { success := false, signal := some 2 },
       Event.unregister, Event.archOutput]) := by
  have h := C6_amended_single_spawn_wait_output perfBackend
    { registerOk := true, spawnOk := true,
      waitResult := some { success := false, signal := some 2 },
      outputOk := true, collapseOk := true, createOk := true,
      renderOk := true }
    { success := false, signal := some 2 } "sleep 5" "flamegraph.svg"
    rfl rfl rfl
  exact ⟨h.1, h.2.1, h.2.2.1, h.2.2.2 rfl⟩

end Flamegraph
